/-
Verification of the cryodrgn orientation-inference / Fourier-synthesis core
(`vae_rot.py` and `vae_tilt.py`) against its design specification.

Shallow embedding conventions:
* numpy/torch floating-point scalars are modelled as rationals (ℚ);
  transcendental constants (log(8π²)) and backend functions (sqrt, the
  centered Hartley transforms, the SO(3) entropy estimator) that live in
  the external `lib-python` modules are threaded through as explicit
  parameters or modelled from the specification where noted;
* a 2D image batch is the flat list of its entries; a Fourier volume is a
  list of flat z-slices;
* Python exceptions (assert, raise, NameError) are modelled with Except;
* model parameters and optimizer state are abstract types mutated only by
  an abstract optimizer-step function.
-/
import Mathlib

namespace CryoDrgn

/-! ## Basic list statistics (numpy mean / std / median / max) -/

/-- Arithmetic mean of a list, `np.mean` (0 on the empty list, where numpy
would return NaN; all uses in the scripts are on nonempty stacks). -/
def listMean (xs : List ℚ) : ℚ := xs.sum / xs.length

/-- Population variance, the square of `np.std` (default ddof=0). -/
def listVar (xs : List ℚ) : ℚ :=
  listMean (xs.map fun x => (x - listMean xs) ^ 2)

/-- `np.std` with an explicit square-root oracle standing for the
floating-point sqrt of the numerical backend. -/
def listStd (sqrt : ℚ → ℚ) (xs : List ℚ) : ℚ := sqrt (listVar xs)

/-- Insert into a sorted list (ascending). -/
def insertSorted (x : ℚ) : List ℚ → List ℚ
  | [] => [x]
  | y :: ys => if x ≤ y then x :: y :: ys else y :: insertSorted x ys

/-- Insertion sort, ascending. -/
def sortQ (xs : List ℚ) : List ℚ := xs.foldr insertSorted []

/-- `np.median`: middle element of the sorted list, or the mean of the two
middle elements for even length (0 on the empty list, where numpy would
return NaN). -/
def medianQ (xs : List ℚ) : ℚ :=
  let s := sortQ xs
  let n := s.length
  if n = 0 then 0
  else if n % 2 = 1 then s.getD (n / 2) 0
  else (s.getD (n / 2 - 1) 0 + s.getD (n / 2) 0) / 2

/-- `np.max` over one image's pixels (0 on the empty image). -/
def imageMax (xs : List ℚ) : ℚ := xs.foldr max 0

/-! ## Loss functions (`loss_function` in vae_rot.py / vae_tilt.py) -/

/-- `F.mse_loss` with default mean reduction: mean over all elements of the
squared differences. -/
def mse_loss (recon y : List ℚ) : ℚ :=
  listMean ((recon.zip y).map fun p => (p.1 - p.2) ^ 2)

/-- `loss_function` of vae_rot.py: gen_loss is the plain MSE, and
kld = cross_entropy − entropy averaged over the batch, where
`crossEntropy` stands for the constant `np.log(8*np.pi**2)` and
`entropy` is the per-image output of the external `lie_tools.so3_entropy`
estimator on (w_eps, z_std). Returns (gen_loss, kld.mean()). -/
def loss_function_rot (crossEntropy : ℚ) (recon y : List ℚ)
    (entropy : List ℚ) : ℚ × ℚ :=
  (mse_loss recon y, listMean (entropy.map fun e => crossEntropy - e))

/-- `loss_function` of vae_tilt.py: the two views' MSEs each weighted 0.5;
kld exactly as in the single-view variant. -/
def loss_function_tilt (crossEntropy : ℚ) (recon reconTilt y yt : List ℚ)
    (entropy : List ℚ) : ℚ × ℚ :=
  (mse_loss recon y * (1/2) + mse_loss reconTilt yt * (1/2),
   listMean (entropy.map fun e => crossEntropy - e))

/-- The loss composition of the training loop (vae_rot.py lines 156–159,
vae_tilt.py lines 196–199): fixed-weight mode when no beta-control weight
is configured, control mode otherwise. -/
def composeLoss (betaControl : Option ℚ) (genLoss kld beta : ℚ)
    (nx ny : ℕ) : ℚ :=
  match betaControl with
  | none => genLoss + beta * kld / (nx * ny)
  | some gamma => genLoss + gamma * (beta - kld) ^ 2 / (nx * ny)

/-! ## Volume evaluator (`eval_volume` in vae_rot.py / vae_tilt.py) -/

/-- A 3D lattice coordinate. -/
def Point : Type := ℚ × ℚ × ℚ

/-- A Fourier volume: a list of z-slices, each slice the flat list of its
ny·nx entries (the `y.view(ny, nx)` reshape is row-major on the same
data). -/
def VolF : Type := List (List ℚ)

/-- `model.lattice + torch.tensor([0,0,z])`: translate one lattice point by
z along the third axis. -/
def translateZ (z : ℚ) (p : Point) : Point := (p.1, p.2.1, p.2.2 + z)

/-- `np.linspace(-1, 1, nz, endpoint=False)`: the i-th of nz evenly spaced
offsets −1 + 2i/nz, right endpoint excluded. -/
def zOffsets (nz : ℕ) : List ℚ :=
  (List.range nz).map fun i : ℕ => -1 + 2 * (i : ℚ) / nz

/-- One z-slice: the decoder queried in one pass on the whole translated
lattice. The decoder's Bool argument is the gradient flag of the backend;
the evaluator queries it inside `torch.no_grad()`, i.e. at `false`. -/
def evalSlice (decoder : Bool → Point → ℚ) (lattice : List Point)
    (z : ℚ) : List ℚ :=
  (lattice.map (translateZ z)).map (decoder false)

/-- Elementwise denormalization `v*scale+offset` of one slice, with
`norm = (offset, scale)` as the Python list `[rnorm[0], rnorm[1]]`. -/
def denormSlice (norm : ℚ × ℚ) (s : List ℚ) : List ℚ :=
  s.map fun v => v * norm.2 + norm.1

/-- `eval_volume` of vae_rot.py: asserts the model is not in training mode,
builds each z-slice already denormalized (`vol_f[i] = y*rnorm[1]+rnorm[0]`),
and returns (ihtn_center(vol_f), vol_f) for the external inverse centered
Hartley transform `iht`. -/
def eval_volume_rot (iht : VolF → VolF) (decoder : Bool → Point → ℚ)
    (lattice : List Point) (training : Bool) (nz _ny _nx : ℕ)
    (rnorm : ℚ × ℚ) : Except String (VolF × VolF) :=
  if training then .error "assert not model.training"
  else
    let volF : VolF :=
      (zOffsets nz).map fun z => denormSlice rnorm (evalSlice decoder lattice z)
    .ok (iht volF, volF)

/-- `eval_volume` of vae_tilt.py: identical slice construction but the
slices are stored raw (`vol_f[i] = y`) and the denormalization is applied
only to the argument of the inverse transform
(`ihtn_center(vol_f*ft_norm[1]+ft_norm[0])`). -/
def eval_volume_tilt (iht : VolF → VolF) (decoder : Bool → Point → ℚ)
    (lattice : List Point) (training : Bool) (nz _ny _nx : ℕ)
    (ft_norm : ℚ × ℚ) : Except String (VolF × VolF) :=
  if training then .error "assert not model.training"
  else
    let volF : VolF := (zOffsets nz).map (evalSlice decoder lattice)
    .ok (iht (volF.map (denormSlice ft_norm)), volF)

/-! ## Train/eval mode trace of the training loop (vae_rot.py main;
vae_tilt.py main is line-for-line identical in its mode handling) -/

/-- The mode-relevant events of a run: a training iteration beginning, or
an `eval_volume` invocation, each recording the model's training flag at
that moment. -/
inductive TraceEv where
  | iterStart (training : Bool)
  | evalCall (training : Bool)
deriving DecidableEq, Repr

/-- One epoch of the training loop: `nb` iterations at the current mode,
then — when `args.checkpoint` is truthy and divides the epoch index —
`model.eval()`, an `eval_volume` call, the checkpoint writes, and
`model.train()`. Returns the events and the mode after the epoch. -/
def epochTrace (ckpt nb epoch : ℕ) (m : Bool) : List TraceEv × Bool :=
  let iters := List.replicate nb (TraceEv.iterStart m)
  if ckpt ≠ 0 ∧ epoch % ckpt = 0 then (iters ++ [TraceEv.evalCall false], true)
  else (iters, m)

/-- The epoch loop from `epoch`, running `fuel` remaining epochs. -/
def loopTrace (ckpt nb : ℕ) : ℕ → Bool → ℕ → List TraceEv × Bool
  | _, m, 0 => ([], m)
  | epoch, m, k + 1 =>
    let p := epochTrace ckpt nb epoch m
    let r := loopTrace ckpt nb (epoch + 1) p.2 k
    (p.1 ++ r.1, r.2)

/-- The whole run's mode events: the model starts in training mode (the
PyTorch default; the checkpoint-resume path calls `model.train()`
explicitly), the epoch loop runs from `startEpoch` to `numEpochs`, and the
final evaluation is preceded by `model.eval()`. -/
def mainTrace (ckpt nb startEpoch numEpochs : ℕ) : List TraceEv :=
  (loopTrace ckpt nb startEpoch true (numEpochs - startEpoch)).1 ++
    [TraceEv.evalCall false]

/-! ## NaN abort in the training iteration (vae_rot.py lines 161–168,
vae_tilt.py lines 204–211) -/

/-- A backend scalar that may be NaN; `torch.isnan` is `isNan`. -/
inductive FP where
  | nan : FP
  | val (q : ℚ) : FP
deriving DecidableEq, Repr

/-- `torch.isnan(kld)`. -/
def FP.isNan : FP → Bool
  | .nan => true
  | .val _ => false

/-- What the abort path logs and raises: `log(w_eps[0])`, `log(z_std[0])`,
then `raise RuntimeError` with this message. -/
structure NanLog where
  wEps0 : List ℚ
  zStd0 : List ℚ
  msg : String
deriving DecidableEq, Repr

/-- The part of one minibatch's forward pass and loss computation the NaN
check inspects: the per-batch kld and the first noise draw and dispersion
that would be logged. -/
structure BatchOutcome where
  kld : FP
  wEps0 : List ℚ
  zStd0 : List ℚ
deriving DecidableEq, Repr

/-- One training iteration after the loss is composed: the NaN check runs
before `loss.backward(); optim.step()`, so on NaN the exception escapes
with no optimizer step applied; otherwise the step updates the model
parameters and optimizer state. -/
def trainIteration {P O : Type} (step : P → O → P × O) (out : BatchOutcome)
    (st : P × O) : Except NanLog (P × O) :=
  if out.kld.isNan then .error ⟨out.wEps0, out.zStd0, "KLD is nan"⟩
  else .ok (step st.1 st.2)

/-- The minibatch loop. The forward pass `fw` may depend on the current
parameters and state; an error carries the state at the raise, which the
exception leaves untouched (the raise is never retried and unwinds out of
the loop). -/
def runBatches {P O B : Type} (step : P → O → P × O)
    (fw : P × O → B → BatchOutcome) :
    P × O → List B → Except (NanLog × (P × O)) (P × O)
  | st, [] => .ok st
  | st, b :: bs =>
    match trainIteration step (fw st b) st with
    | .error e => .error (e, st)
    | .ok st1 => runBatches step fw st1 bs

/-! ## Normalization statistics (vae_rot.py lines 101–112,
vae_tilt.py lines 112–131) -/

/-- `(x - norm[0]) / norm[1]` applied to a whole stack. -/
def normalizeStack (norm : ℚ × ℚ) (stack : List (List ℚ)) : List (List ℚ) :=
  stack.map fun img => img.map fun x => (x - norm.1) / norm.2

/-- The normalization constants and normalized stacks the training loop
uses. -/
structure NormPrep where
  realNorm : ℚ × ℚ
  ftNorm : ℚ × ℚ
  particlesReal : List (List ℚ)
  particlesFt : List (List ℚ)
deriving Repr

/-- The statistics block of both mains: the stack mean/std pairs are
computed and logged, then the offset component is overwritten with 0 in
both; the real-space scale is overwritten with the median per-image
maximum, while the Fourier-space scale keeps the empirical standard
deviation of the Hartley-transformed stack. `ht` is the external
`fft.ht2_center` and `sqrt` the backend square root inside `np.std`. -/
def prepareParticles (sqrt : ℚ → ℚ) (ht : List ℚ → List ℚ)
    (stack : List (List ℚ)) : NormPrep :=
  let particlesFt := stack.map ht
  let _rnorm0 := (listMean stack.flatten, listStd sqrt stack.flatten)
  let realNorm := (0, medianQ (stack.map imageMax))
  let ftnorm0 := (listMean particlesFt.flatten, listStd sqrt particlesFt.flatten)
  let ftNorm := (0, ftnorm0.2)
  { realNorm := realNorm
    ftNorm := ftNorm
    particlesReal := normalizeStack realNorm stack
    particlesFt := normalizeStack ftNorm particlesFt }

/-- vae_tilt.py lines 126–131: the tilted stack and its Hartley transform
are normalized with the constants computed from the untilted stack. -/
def prepareTiltStacks (sqrt : ℚ → ℚ) (ht : List ℚ → List ℚ)
    (stack stackTilt : List (List ℚ)) : List (List ℚ) × List (List ℚ) :=
  let p := prepareParticles sqrt ht stack
  (normalizeStack p.realNorm stackTilt,
   normalizeStack p.ftNorm (stackTilt.map ht))

/-! ## Beta-schedule validation (vae_rot.py lines 90–91,
vae_tilt.py lines 98–102) -/

/-- `args.beta` as the scripts hold it: the argparse default is the float
1.0; any value given on the command line arrives as a string (the `--beta`
option declares no type). -/
inductive BetaArg where
  | num (q : ℚ)
  | str (s : String)
deriving DecidableEq, Repr

/-- Python truthiness of the optional beta-control / equivariance float:
None and 0.0 are falsy. -/
def truthy : Option ℚ → Bool
  | none => false
  | some q => decide (q ≠ 0)

/-- The numeric value of a decimal digit character. -/
def digitVal (c : Char) : Option ℕ :=
  if c.isDigit then some (c.toNat - 48) else none

/-- Accumulate decimal digits; none on the first non-digit. -/
def parseNatAux : List Char → ℕ → Option ℕ
  | [], acc => some acc
  | c :: cs, acc =>
    match digitVal c with
    | some d => parseNatAux cs (10 * acc + d)
    | none => none

/-- A nonempty all-digit run as a natural number. -/
def parseNatChars : List Char → Option ℕ
  | [] => none
  | cs => parseNatAux cs 0

/-- Split a character list on the dot character. -/
def splitDotAux : List Char → List Char → List (List Char)
  | [], acc => [acc.reverse]
  | c :: cs, acc =>
    if c = '.' then acc.reverse :: splitDotAux cs []
    else splitDotAux cs (c :: acc)

/-- An unsigned decimal literal as a rational. -/
def pyFloatChars (cs : List Char) : Option ℚ :=
  match splitDotAux cs [] with
  | [a] => (parseNatChars a).map fun n => (n : ℚ)
  | [a, b] =>
    match parseNatChars a, parseNatChars b with
    | some n, some f => some ((n : ℚ) + (f : ℚ) / (10 ^ b.length))
    | _, _ => none
  | _ => none

/-- Modelled from the spec: Python `float()` on the configuration surface,
restricted to plain decimal literals (sign, digits, optional fractional
part), the only numeric form the spec's constant-beta selector uses;
returns none exactly when the string is not such a literal, as for a
named annealing curve. -/
def pyFloat (s : String) : Option ℚ :=
  match s.data with
  | [] => none
  | c :: cs =>
    if c = '-' then (pyFloatChars cs).map fun q => -q
    else pyFloatChars (c :: cs)

/-- Modelled from the spec: `get_beta_schedule` (lib-python/beta_schedule.py,
not under src/) resolves the beta selector purely from the configuration
at start time — a constant value (a number, or a string denoting one)
yields the constant schedule, a predefined curve name (the abstract map
`named`) yields that curve, and anything else fails. -/
def get_beta_schedule (named : String → Option (ℕ → ℚ)) :
    BetaArg → Except String (ℕ → ℚ)
  | .num q => .ok fun _ => q
  | .str s =>
    match pyFloat s with
    | some q => .ok fun _ => q
    | none =>
      match named s with
      | some f => .ok f
      | none => .error ("Unrecognized beta schedule " ++ s)

/-- vae_rot.py lines 90–91: resolve the schedule, then
`if type(args.beta) == str: assert args.beta_control, ...` — the check
keys on the value being a string, not on whether it denotes a constant. -/
def setupBetaRot (named : String → Option (ℕ → ℚ)) (beta : BetaArg)
    (betaControl : Option ℚ) : Except String (ℕ → ℚ) :=
  match get_beta_schedule named beta with
  | .error e => .error e
  | .ok sched =>
    match beta with
    | .num _ => .ok sched
    | .str s =>
      if truthy betaControl then .ok sched
      else .error ("Need to set beta control weight for schedule " ++ s)

/-- vae_tilt.py lines 98–102: `try: args.beta = float(args.beta)` first;
only when the conversion fails (a genuinely non-numeric schedule name)
is `assert args.beta_control` required; then the schedule is resolved. -/
def setupBetaTilt (named : String → Option (ℕ → ℚ)) (beta : BetaArg)
    (betaControl : Option ℚ) : Except String (ℕ → ℚ) :=
  match beta with
  | .num q => get_beta_schedule named (.num q)
  | .str s =>
    match pyFloat s with
    | some q => get_beta_schedule named (.num q)
    | none =>
      if truthy betaControl then get_beta_schedule named (.str s)
      else .error ("Need to set beta control weight for schedule " ++ s)

/-! ## Equivariance coefficient (vae_tilt.py lines 141–145, 181–185,
201–202) -/

/-- Modelled from the spec: `LinearSchedule` (lib-python/beta_schedule.py,
not under src/) ramps linearly from its start value to its end value over
the iteration window [it0, it1], holding the start value before the
window and the end value after it. -/
def linearSchedule (y0 y1 : ℚ) (it0 it1 : ℕ) (t : ℕ) : ℚ :=
  if t ≤ it0 then y0
  else if it1 ≤ t then y1
  else y0 + (y1 - y0) * ((t : ℚ) - it0) / ((it1 : ℚ) - it0)

/-- The equivariance contribution `lamb * eq_loss` added to the total loss
at global iteration t, with
`equivariance_lambda = LinearSchedule(0, args.equivariance, 10000,
args.equivariance_end_it)`; when `args.equivariance` is falsy the code
sets `lamb, eq_loss = 0, 0` and adds nothing. -/
def equivarianceTerm (equivariance : Option ℚ) (endIt t : ℕ)
    (eqLoss : ℚ) : ℚ :=
  if truthy equivariance then
    linearSchedule 0 (equivariance.getD 0) 10000 endIt t * eqLoss
  else 0

/-- The tilt variant's total minibatch loss (vae_tilt.py lines 195–202). -/
def totalLossTilt (betaControl equivariance : Option ℚ)
    (genLoss kld beta eqLoss : ℚ) (endIt t nx ny : ℕ) : ℚ :=
  composeLoss betaControl genLoss kld beta nx ny +
    equivarianceTerm equivariance endIt t eqLoss

/-! ## Final density map and checkpoint writes (vae_rot.py lines 189–198,
vae_tilt.py lines 237–246) -/

/-- A file written at the end of a run. -/
inductive FileWrite (P O : Type) where
  | densityMap (name : String)
  | ckpt (name : String) (epoch : ℕ) (params : P) (optimSt : O)
deriving DecidableEq, Repr

/-- Python's `for epoch in range(start_epoch, num_epochs)` leaves the loop
variable bound to the last iterated index — and leaves it unbound when
the range is empty. -/
def lastLoopEpoch (startEpoch numEpochs : ℕ) : Option ℕ :=
  if startEpoch < numEpochs then some (numEpochs - 1) else none

/-- The code after the training loop: `mrc.write(outdir/reconstruct.mrc)`
first, then `torch.save` of the epoch/model/optimizer bundle to
weights.pkl. Evaluating the dict with the loop variable unbound raises
NameError after the density map is already written, so the run crashes
with no final checkpoint. -/
def finalSaves {P O : Type} (epochVar : Option ℕ) (params : P)
    (optimSt : O) : List (FileWrite P O) × Option String :=
  match epochVar with
  | some e =>
    ([.densityMap "reconstruct.mrc", .ckpt "weights.pkl" e params optimSt],
     none)
  | none =>
    ([.densityMap "reconstruct.mrc"], some "NameError: epoch is not defined")

/-- The end of main as a function of the epoch range actually run. -/
def mainEnding {P O : Type} (startEpoch numEpochs : ℕ) (params : P)
    (optimSt : O) : List (FileWrite P O) × Option String :=
  finalSaves (lastLoopEpoch startEpoch numEpochs) params optimSt

/-- Invariant for C6: from training mode, every epoch's iterations start in
training mode, every eval call sees eval mode, and the mode is back to
training after the epoch. -/
theorem loopTrace_modes (ckpt nb : ℕ) :
    ∀ (k epoch : ℕ),
      TraceEv.iterStart false ∉ (loopTrace ckpt nb epoch true k).1 ∧
      TraceEv.evalCall true ∉ (loopTrace ckpt nb epoch true k).1 ∧
      (loopTrace ckpt nb epoch true k).2 = true := by
  intro k
  induction k with
  | zero => intro epoch; simp [loopTrace]
  | succ n ih =>
    intro epoch
    have h := ih (epoch + 1)
    by_cases hc : ckpt ≠ 0 ∧ epoch % ckpt = 0 <;>
      simp [loopTrace, epochTrace, hc, h.1, h.2.1, h.2.2]

end CryoDrgn

namespace CryoDrgn

/-- C1: In fixed-weight mode (no beta-control weight configured) the
minibatch objective is gen_loss + beta·kld/(nx·ny), with gen_loss the MSE
between reconstructed and true Fourier intensities (each view weighted 0.5
in the tilt variant) and kld the batch mean of log(8π²) − entropy; at
gen_loss = 2, kld = 1, beta = 1/2, nx = ny = 10 the loss is 2.005. -/
theorem fixed_weight_loss_correct :
    (∀ (cE beta : ℚ) (recon y entropy : List ℚ) (nx ny : ℕ),
      composeLoss none (loss_function_rot cE recon y entropy).1
          (loss_function_rot cE recon y entropy).2 beta nx ny =
        mse_loss recon y +
          beta * listMean (entropy.map fun e => cE - e) / (nx * ny)) ∧
    (∀ (cE beta : ℚ) (recon reconTilt y yt entropy : List ℚ) (nx ny : ℕ),
      composeLoss none (loss_function_tilt cE recon reconTilt y yt entropy).1
          (loss_function_tilt cE recon reconTilt y yt entropy).2 beta nx ny =
        mse_loss recon y * (1/2) + mse_loss reconTilt yt * (1/2) +
          beta * listMean (entropy.map fun e => cE - e) / (nx * ny)) ∧
    composeLoss none 2 1 (1/2) 10 10 = 2.005 := by
  refine ⟨fun _ _ _ _ _ _ _ => rfl, fun _ _ _ _ _ _ _ _ _ => rfl, ?_⟩
  norm_num [composeLoss]

/-- C2: In control mode (a control weight γ configured) the minibatch
objective is gen_loss + γ·(beta − kld)²/(nx·ny), beta acting as a KLD
target; at gen_loss = 2, kld = 1, beta = 4/5, γ = 4, nx = ny = 10 the loss
is 2.0016. -/
theorem control_mode_loss_correct :
    (∀ (gamma genLoss kld beta : ℚ) (nx ny : ℕ),
      composeLoss (some gamma) genLoss kld beta nx ny =
        genLoss + gamma * (beta - kld) ^ 2 / (nx * ny)) ∧
    (∀ (cE beta gamma : ℚ) (recon y entropy : List ℚ) (nx ny : ℕ),
      composeLoss (some gamma) (loss_function_rot cE recon y entropy).1
          (loss_function_rot cE recon y entropy).2 beta nx ny =
        mse_loss recon y +
          gamma * (beta - listMean (entropy.map fun e => cE - e)) ^ 2
            / (nx * ny)) ∧
    composeLoss (some 4) 2 1 (4/5) 10 10 = 2.0016 := by
  refine ⟨fun _ _ _ _ _ _ => rfl, fun _ _ _ _ _ _ _ _ => rfl, ?_⟩
  norm_num [composeLoss]

/-- The single-view variant's per-slice denormalization commutes with
stacking: its Fourier volume is the tilt variant's raw volume mapped
through the denormalization. -/
theorem volF_rot_as_denorm (decoder : Bool → Point → ℚ) (lattice : List Point)
    (nz : ℕ) (norm : ℚ × ℚ) :
    ((zOffsets nz).map fun z => denormSlice norm (evalSlice decoder lattice z)) =
      ((zOffsets nz).map (evalSlice decoder lattice)).map (denormSlice norm) := by
  simp [List.map_map, Function.comp]

/-- C4 (amended): the volume evaluator iterates exactly nz offsets
−1 + 2i/nz, each in [−1,1), translates the lattice by (0,0,z), queries the
decoder once per slice on the ny·nx translated lattice, denormalizes every
slice by v·scale+offset and applies the inverse centered Hartley
transform; a constant decoder c yields a denormalized Fourier volume
uniformly equal to c·scale+offset across all nz slices. -/
theorem volume_evaluator_algorithm (iht : VolF → VolF)
    (decoder : Bool → Point → ℚ) (c : ℚ) (lattice : List Point)
    (nz ny nx : ℕ) (rnorm : ℚ × ℚ) (hnz : 0 < nz)
    (hlat : lattice.length = ny * nx) :
    eval_volume_rot iht decoder lattice false nz ny nx rnorm =
      .ok (iht ((zOffsets nz).map fun z =>
              denormSlice rnorm (evalSlice decoder lattice z)),
           (zOffsets nz).map fun z =>
              denormSlice rnorm (evalSlice decoder lattice z)) ∧
    (zOffsets nz).length = nz ∧
    (∀ i, i < nz → (zOffsets nz).getD i 0 = -1 + 2 * i / nz) ∧
    (∀ z ∈ zOffsets nz, -1 ≤ z ∧ z < 1) ∧
    (∀ z, (denormSlice rnorm (evalSlice decoder lattice z)).length = ny * nx) ∧
    (∀ s ∈ (zOffsets nz).map fun z =>
        denormSlice rnorm (evalSlice (fun _ _ => c) lattice z),
      s.length = ny * nx ∧ ∀ v ∈ s, v = c * rnorm.2 + rnorm.1) := by
  refine ⟨rfl, by simp [zOffsets], ?_, ?_, ?_, ?_⟩
  · intro i hi
    simp [zOffsets, List.getD, hi]
  · intro z hz
    simp only [zOffsets, List.mem_map, List.mem_range] at hz
    obtain ⟨i, hi, rfl⟩ := hz
    have hnzq : (0 : ℚ) < nz := by exact_mod_cast hnz
    constructor
    · have : (0 : ℚ) ≤ 2 * i / nz :=
        div_nonneg (by positivity) (le_of_lt hnzq)
      linarith
    · have hiq : (i : ℚ) < nz := by exact_mod_cast hi
      have : 2 * (i : ℚ) / nz < 2 := by
        rw [div_lt_iff₀ hnzq]
        linarith
      linarith
  · intro z
    simp [denormSlice, evalSlice, hlat]
  · intro s hs
    simp only [List.mem_map] at hs
    obtain ⟨z, _, rfl⟩ := hs
    constructor
    · simp [denormSlice, evalSlice, hlat]
    · intro v hv
      simp only [denormSlice, evalSlice, List.mem_map] at hv
      obtain ⟨w, ⟨p, _, rfl⟩, rfl⟩ := hv
      rfl

/-- Witness for C4 at nz = 2, a one-point lattice, offset 3, scale 2,
constant decoder 5. -/
theorem volume_evaluator_algorithm_witness :
    0 < 2 ∧ [((0:ℚ), (0:ℚ), (0:ℚ))].length = 1 * 1 ∧
    ((zOffsets 2).length = 2 ∧
      ∀ s ∈ (zOffsets 2).map fun z =>
          denormSlice (3, 2) (evalSlice (fun _ _ => (5:ℚ)) [((0:ℚ), (0:ℚ), (0:ℚ))] z),
        s.length = 1 * 1 ∧ ∀ v ∈ s, v = 5 * (2:ℚ) + 3) := by
  refine ⟨by norm_num, by norm_num, ?_⟩
  have h := volume_evaluator_algorithm (fun v => v) (fun _ _ => (5:ℚ)) 5
    [((0:ℚ), (0:ℚ), (0:ℚ))] 2 1 1 (3, 2) (by norm_num) (by norm_num)
  exact ⟨h.2.1, h.2.2.2.2.2⟩

/-- C4 counterexample to the literal uniform-c clause: with scale 2 and
offset 0, a constant decoder 1 produces the denormalized Fourier volume
[[2]], not a volume uniformly equal to c = 1. -/
theorem volume_uniform_c_refuted :
    eval_volume_rot (fun v => v) (fun _ _ => (1:ℚ))
        [((0:ℚ), (0:ℚ), (0:ℚ))] false 1 1 1 (0, 2) =
      .ok ([[2]], [[2]]) ∧ (2 : ℚ) ≠ 1 := by
  constructor
  · norm_num [eval_volume_rot, zOffsets, evalSlice, denormSlice, translateZ,
      List.range_succ]
  · norm_num

/-- C10: for the same decoder, lattice, dimensions and constants, the two
variants' volume evaluators return the same real-space density, the
single-view Fourier volume is the denormalization of the tilt variant's,
and the Fourier outputs themselves differ (offset 1, scale 1, constant
decoder 0: [[1]] versus [[0]]). -/
theorem eval_volume_variants_refinement :
    (∀ (iht : VolF → VolF) (decoder : Bool → Point → ℚ)
        (lattice : List Point) (nz ny nx : ℕ) (norm : ℚ × ℚ),
      ∃ vol fRot fTilt,
        eval_volume_rot iht decoder lattice false nz ny nx norm =
          .ok (vol, fRot) ∧
        eval_volume_tilt iht decoder lattice false nz ny nx norm =
          .ok (vol, fTilt) ∧
        fRot = fTilt.map (denormSlice norm)) ∧
    eval_volume_rot (fun v => v) (fun _ _ => (0:ℚ))
        [((0:ℚ), (0:ℚ), (0:ℚ))] false 1 1 1 (1, 1) = .ok ([[1]], [[1]]) ∧
    eval_volume_tilt (fun v => v) (fun _ _ => (0:ℚ))
        [((0:ℚ), (0:ℚ), (0:ℚ))] false 1 1 1 (1, 1) = .ok ([[1]], [[0]]) ∧
    ([[(1:ℚ)]] : VolF) ≠ [[0]] := by
  refine ⟨?_, ?_, ?_, by simp⟩
  · intro iht decoder lattice nz ny nx norm
    refine ⟨iht ((zOffsets nz).map fun z =>
        denormSlice norm (evalSlice decoder lattice z)),
      (zOffsets nz).map fun z => denormSlice norm (evalSlice decoder lattice z),
      (zOffsets nz).map (evalSlice decoder lattice),
      rfl, ?_, volF_rot_as_denorm decoder lattice nz norm⟩
    simp only [eval_volume_tilt, Bool.false_eq_true, if_false, List.map_map]
    rfl
  · norm_num [eval_volume_rot, zOffsets, evalSlice, denormSlice, translateZ,
      List.range_succ]
  · norm_num [eval_volume_tilt, zOffsets, evalSlice, denormSlice, translateZ,
      List.range_succ]

/-- C6: in the run's mode trace no training iteration ever starts outside
training mode and no volume evaluation ever runs in training mode (the
evaluator's assertion never fires: in eval mode it returns normally), and
the evaluator's output depends only on the decoder's behavior with
gradients disabled (the flag passed inside `torch.no_grad()`). -/
theorem eval_mode_discipline :
    (∀ ckpt nb s n,
      TraceEv.iterStart false ∉ mainTrace ckpt nb s n ∧
      TraceEv.evalCall true ∉ mainTrace ckpt nb s n) ∧
    (∀ (iht : VolF → VolF) (decoder : Bool → Point → ℚ)
        (lattice : List Point) (nz ny nx : ℕ) (norm : ℚ × ℚ),
      (∃ out, eval_volume_rot iht decoder lattice false nz ny nx norm =
        .ok out) ∧
      (∃ out, eval_volume_tilt iht decoder lattice false nz ny nx norm =
        .ok out)) ∧
    (∀ (iht : VolF → VolF) (d1 d2 : Bool → Point → ℚ) (lattice : List Point)
        (nz ny nx : ℕ) (norm : ℚ × ℚ),
      (∀ p, d1 false p = d2 false p) →
      eval_volume_rot iht d1 lattice false nz ny nx norm =
        eval_volume_rot iht d2 lattice false nz ny nx norm) := by
  refine ⟨?_, fun _ _ _ _ _ _ _ => ⟨⟨_, rfl⟩, ⟨_, rfl⟩⟩, ?_⟩
  · intro ckpt nb s n
    have h := loopTrace_modes ckpt nb (n - s) s
    constructor
    · simp [mainTrace, h.1]
    · simp [mainTrace, h.2.1]
  · intro iht d1 d2 lattice nz ny nx norm h
    have hd : d1 false = d2 false := funext h
    simp [eval_volume_rot, evalSlice, hd]

/-- C3: if a batch's kld evaluates to NaN the iteration raises a fatal
error carrying the logged noise draw and dispersion (w_eps[0], z_std[0])
before its optimizer step, the loop aborts with the model parameters and
optimizer state exactly as the preceding iterations left them, and no
later batch is attempted. -/
theorem nan_kld_aborts {P O B : Type} (step : P → O → P × O)
    (fw : P × O → B → BatchOutcome) (st st1 : P × O) (pre : List B)
    (bad : B) (rest : List B)
    (hpre : runBatches step fw st pre = .ok st1)
    (hnan : ((fw st1 bad).kld).isNan = true) :
    trainIteration step (fw st1 bad) st1 =
      .error ⟨(fw st1 bad).wEps0, (fw st1 bad).zStd0, "KLD is nan"⟩ ∧
    runBatches step fw st (pre ++ bad :: rest) =
      .error (⟨(fw st1 bad).wEps0, (fw st1 bad).zStd0, "KLD is nan"⟩, st1) := by
  refine ⟨by simp [trainIteration, hnan], ?_⟩
  induction pre generalizing st with
  | nil =>
    simp only [runBatches] at hpre
    cases hpre
    simp [runBatches, trainIteration, hnan]
  | cons p ps ih =>
    simp only [List.cons_append, runBatches] at hpre ⊢
    cases h : trainIteration step (fw st p) st with
    | error e => rw [h] at hpre; exact Except.noConfusion hpre
    | ok st2 => rw [h] at hpre; exact ih st2 hpre

/-- Witness for C3: two clean batches move the parameters from 0 to 2,
then a NaN batch aborts with that state intact and the trailing batch
never runs. -/
theorem nan_kld_aborts_witness :
    runBatches (fun p o => (p + 1, o))
      (fun _ b => if b = 0 then ⟨.nan, [1], [2]⟩ else ⟨.val 0, [], []⟩)
      ((0 : ℕ), (0 : ℕ)) [1, 1] = .ok (2, 0) ∧
    runBatches (fun p o => (p + 1, o))
      (fun _ b => if b = 0 then ⟨.nan, [1], [2]⟩ else ⟨.val 0, [], []⟩)
      ((0 : ℕ), (0 : ℕ)) ([1, 1] ++ 0 :: [1]) =
      .error (⟨[1], [2], "KLD is nan"⟩, (2, 0)) :=
  have hpre : runBatches (fun p o => (p + 1, o))
      (fun _ b => if b = 0 then ⟨.nan, [1], [2]⟩ else ⟨.val 0, [], []⟩)
      ((0 : ℕ), (0 : ℕ)) [1, 1] = .ok (2, 0) := by
    simp [runBatches, trainIteration, FP.isNan]
  ⟨hpre,
   (nan_kld_aborts (fun p o => (p + 1, o))
      (fun _ b => if b = 0 then ⟨.nan, [1], [2]⟩ else ⟨.val 0, [], []⟩)
      ((0 : ℕ), (0 : ℕ)) ((2 : ℕ), (0 : ℕ)) [1, 1] 0 [1] hpre rfl).2⟩

/-- C5: both offsets are forced to zero, the real-space scale is the
median per-image maximum, the Fourier-space scale is the empirical std of
the Hartley-transformed stack, the tilted stacks are normalized with the
untilted stack's constants, and volume evaluation denormalizes with the
same Fourier constants; on the stack [[1,3],[2,5]] with identity
transforms the constants evaluate to (0,4) and (0, 35/16). -/
theorem normalization_statistics :
    (∀ (sqrt : ℚ → ℚ) (ht : List ℚ → List ℚ)
        (stack stackTilt : List (List ℚ)),
      (prepareParticles sqrt ht stack).realNorm.1 = 0 ∧
      (prepareParticles sqrt ht stack).ftNorm.1 = 0 ∧
      (prepareParticles sqrt ht stack).realNorm.2 =
        medianQ (stack.map imageMax) ∧
      (prepareParticles sqrt ht stack).ftNorm.2 =
        listStd sqrt (stack.map ht).flatten ∧
      (prepareParticles sqrt ht stack).particlesReal =
        stack.map (fun img => img.map fun x =>
          (x - 0) / medianQ (stack.map imageMax)) ∧
      prepareTiltStacks sqrt ht stack stackTilt =
        (normalizeStack (prepareParticles sqrt ht stack).realNorm stackTilt,
         normalizeStack (prepareParticles sqrt ht stack).ftNorm
           (stackTilt.map ht)) ∧
      (∀ (iht : VolF → VolF) (decoder : Bool → Point → ℚ)
          (lattice : List Point) (nz ny nx : ℕ),
        eval_volume_tilt iht decoder lattice false nz ny nx
            (prepareParticles sqrt ht stack).ftNorm =
          .ok (iht (((zOffsets nz).map (evalSlice decoder lattice)).map
                (denormSlice (0, listStd sqrt (stack.map ht).flatten))),
              (zOffsets nz).map (evalSlice decoder lattice)))) ∧
    (prepareParticles (fun q => q) (fun l => l) [[1, 3], [2, 5]]).realNorm =
      (0, 4) ∧
    (prepareParticles (fun q => q) (fun l => l) [[1, 3], [2, 5]]).ftNorm =
      (0, 35 / 16) := by
  refine ⟨fun sqrt ht stack stackTilt =>
    ⟨rfl, rfl, rfl, rfl, rfl, rfl, fun _ _ _ _ _ _ => rfl⟩, ?_, ?_⟩
  · norm_num [prepareParticles, medianQ, sortQ, insertSorted, imageMax]
  · norm_num [prepareParticles, listStd, listVar, listMean]

/-- C7 (amended): with a non-constant (non-numeric) schedule and a falsy
beta-control weight both variants fail during setup with the descriptive
assert message, before any training iteration can run; the numeric
default needs no control weight in either variant and a numeric string
needs none in the tilt variant — but the single-view variant demands a
control weight for every string-supplied beta, numeric or not. -/
theorem beta_schedule_validation :
    (∀ (named : String → Option (ℕ → ℚ)) (f : ℕ → ℚ) (s : String)
        (bc : Option ℚ), pyFloat s = none → named s = some f →
        truthy bc = false →
      setupBetaRot named (.str s) bc =
        .error ("Need to set beta control weight for schedule " ++ s) ∧
      setupBetaTilt named (.str s) bc =
        .error ("Need to set beta control weight for schedule " ++ s) ∧
      (∀ (α : Type) (k : (ℕ → ℚ) → Except String α),
        (setupBetaRot named (.str s) bc).bind k =
          .error ("Need to set beta control weight for schedule " ++ s))) ∧
    (∀ (named : String → Option (ℕ → ℚ)) (q : ℚ),
      setupBetaRot named (.num q) none = .ok (fun _ => q) ∧
      setupBetaTilt named (.num q) none = .ok (fun _ => q)) ∧
    (∀ (named : String → Option (ℕ → ℚ)) (s : String) (q : ℚ),
      pyFloat s = some q →
      setupBetaTilt named (.str s) none = .ok (fun _ => q)) := by
  refine ⟨?_, fun _ _ => ⟨rfl, rfl⟩, ?_⟩
  · intro named f s bc h1 h2 h3
    refine ⟨?_, ?_, ?_⟩ <;>
      simp [setupBetaRot, setupBetaTilt, get_beta_schedule, h1, h2, h3,
        Except.bind]
  · intro named s q h
    simp [setupBetaTilt, get_beta_schedule, h]

/-- Witness for C7 at the named curve "cyclic" with no control weight. -/
theorem beta_schedule_validation_witness :
    pyFloat "cyclic" = none ∧
    setupBetaRot (fun s => if s = "cyclic" then some fun _ => 1 else none)
        (.str "cyclic") none =
      .error "Need to set beta control weight for schedule cyclic" :=
  have h1 : pyFloat "cyclic" = none := by
    simp [pyFloat, pyFloatChars, splitDotAux, parseNatChars, parseNatAux,
      digitVal]
  ⟨h1,
   (beta_schedule_validation.1
      (fun s => if s = "cyclic" then some fun _ => 1 else none)
      (fun _ => 1) "cyclic" none h1 (by simp) rfl).1⟩

/-- C7 counterexample: "1.0" on the command line denotes the constant
schedule 1 (the float conversion succeeds), yet the single-view variant
refuses to run without a beta-control weight. -/
theorem constant_beta_cli_refused :
    pyFloat "1.0" = some 1 ∧
    setupBetaRot (fun _ => none) (.str "1.0") none =
      .error "Need to set beta control weight for schedule 1.0" := by
  have h1 : pyFloat "1.0" = some 1 := by
    simp [pyFloat, pyFloatChars, splitDotAux, parseNatChars, parseNatAux,
      digitVal]
  refine ⟨h1, ?_⟩
  simp [setupBetaRot, get_beta_schedule, h1, truthy]

/-- C8: with an equivariance weight lm configured, the penalty added at
global iteration t is weighted by linearSchedule 0 lm 10000 endIt t: zero
at the window start, lm·(t−10000)/(endIt−10000) across the window, and
constantly lm for all t ≥ endIt; with no weight configured the
contribution is exactly 0. -/
theorem equivariance_coefficient (lm : ℚ) (endIt : ℕ) (hl : 0 < lm)
    (hw : 10000 < endIt) :
    (∀ (bc : Option ℚ) (genLoss kld beta eqLoss : ℚ) (t nx ny : ℕ),
      totalLossTilt bc (some lm) genLoss kld beta eqLoss endIt t nx ny =
        composeLoss bc genLoss kld beta nx ny +
          linearSchedule 0 lm 10000 endIt t * eqLoss) ∧
    linearSchedule 0 lm 10000 endIt 10000 = 0 ∧
    (∀ t, 10000 ≤ t → t ≤ endIt →
      linearSchedule 0 lm 10000 endIt t =
        lm * ((t : ℚ) - 10000) / ((endIt : ℚ) - 10000)) ∧
    (∀ t, endIt ≤ t → linearSchedule 0 lm 10000 endIt t = lm) ∧
    (∀ (bc : Option ℚ) (genLoss kld beta eqLoss : ℚ) (t nx ny : ℕ),
      (totalLossTilt bc none genLoss kld beta eqLoss endIt t nx ny =
        composeLoss bc genLoss kld beta nx ny) ∧
      equivarianceTerm none endIt t eqLoss = 0) := by
  have hd : ((endIt : ℚ) - 10000) ≠ 0 := by
    have : (10000 : ℚ) < endIt := by exact_mod_cast hw
    linarith
  refine ⟨?_, ?_, ?_, ?_, ?_⟩
  · intro bc genLoss kld beta eqLoss t nx ny
    simp [totalLossTilt, equivarianceTerm, truthy, hl.ne']
  · simp [linearSchedule]
  · intro t h1 h2
    rcases eq_or_lt_of_le h1 with h1e | h1l
    · subst h1e
      simp [linearSchedule]
    · rcases eq_or_lt_of_le h2 with h2e | h2l
      · subst h2e
        have ht : ¬ (t ≤ 10000) := by omega
        simp only [linearSchedule, if_neg ht, le_refl, if_true]
        rw [mul_div_assoc, div_self hd, mul_one]
      · have ht : ¬ (t ≤ 10000) := by omega
        have ht2 : ¬ (endIt ≤ t) := by omega
        simp only [linearSchedule, if_neg ht, if_neg ht2]
        ring
  · intro t h
    have ht : ¬ (t ≤ 10000) := by omega
    simp [linearSchedule, ht, h]
  · intro bc genLoss kld beta eqLoss t nx ny
    simp [totalLossTilt, equivarianceTerm, truthy]

/-- Witness for C8 with maximum 2 and ramp end 20000: the coefficient is
0 at the window start and 2 after the ramp end. -/
theorem equivariance_coefficient_witness :
    (0 : ℚ) < 2 ∧ 10000 < 20000 ∧
    linearSchedule 0 2 10000 20000 10000 = 0 ∧
    linearSchedule 0 2 10000 20000 25000 = 2 :=
  ⟨by norm_num, by norm_num,
   (equivariance_coefficient 2 20000 (by norm_num) (by norm_num)).2.1,
   (equivariance_coefficient 2 20000 (by norm_num) (by norm_num)).2.2.2.1
     25000 (by norm_num)⟩

/-- C9: after a run with at least one epoch the suffix-free density map
and checkpoint bundle are both written, but with zero epochs to run
(resuming at or past the configured epoch count) the loop variable is
unbound and the final torch.save raises NameError: the density map is
written, the final checkpoint bundle is not. -/
theorem final_save_zero_epochs_bug :
    mainEnding 0 2 (37 : ℕ) (5 : ℕ) =
      ([.densityMap "reconstruct.mrc", .ckpt "weights.pkl" 1 37 5], none) ∧
    mainEnding 10 10 (37 : ℕ) (5 : ℕ) =
      ([.densityMap "reconstruct.mrc"],
       some "NameError: epoch is not defined") ∧
    lastLoopEpoch 10 10 = none :=
  ⟨rfl, rfl, rfl⟩

/-- Witness for C6: the gradient-frame conjunct applied to two decoders
that differ in gradient-enabled mode but agree with gradients disabled. -/
theorem eval_mode_discipline_witness :
    eval_volume_rot (fun v => v) (fun g _ => if g then (7:ℚ) else 0)
        [((0:ℚ), (0:ℚ), (0:ℚ))] false 1 1 1 (0, 1) =
      eval_volume_rot (fun v => v) (fun _ _ => (0:ℚ))
        [((0:ℚ), (0:ℚ), (0:ℚ))] false 1 1 1 (0, 1) :=
  eval_mode_discipline.2.2 (fun v => v) (fun g _ => if g then (7:ℚ) else 0)
    (fun _ _ => (0:ℚ)) [((0:ℚ), (0:ℚ), (0:ℚ))] 1 1 1 (0, 1) (fun _ => rfl)

end CryoDrgn
